import Mathlib

/-!
Verification of the Session & Data Client of the pharmacy-inventory
single-page application (`src/App.js`).

The JavaScript code is shallowly embedded: JavaScript values appearing in
the session/request layer are modelled by the inductive type `Json`
(extended with a constructor for JavaScript `undefined`), strings searched by the
medicine filter are modelled as `List Char`, and the stateful React
component is modelled by explicit state records together with total Lean
functions that mirror the handlers.  Fallible JavaScript computations
(JSON parsing, `fetch` rejections, property access on `undefined`) are
modelled with `Except`.  `JSON.stringify` followed by `JSON.parse` is the
identity on plain JSON values, so the browser storage cell is modelled by
`StoredCell`, which records whether the cell is absent, holds an
unparsable string, or holds a string that parses to a given JSON value.
-/

/-! ## JavaScript value model -/

/-- JavaScript values flowing through the client: JSON values plus
`undefined` (the result of reading a missing object property). -/
inductive Json where
  | undefined : Json
  | null : Json
  | bool (b : Bool) : Json
  | num (n : Int) : Json
  | str (s : String) : Json
  | arr (items : List Json) : Json
  | obj (fields : List (String × Json)) : Json

/-- JavaScript truthiness (`Boolean(v)`): `undefined`, `null`, `false`,
`0` and `""` are falsy; every array and object is truthy. -/
def jsTruthy : Json → Bool
  | .undefined => false
  | .null => false
  | .bool b => b
  | .num n => decide (n ≠ 0)
  | .str s => decide (s ≠ "")
  | .arr _ => true
  | .obj _ => true

/-- Property read `v?.k` (optional chaining): a missing key, or a
receiver that is not an object, yields `undefined`. -/
def jsField (v : Json) (k : String) : Json :=
  match v with
  | .obj fields =>
      match fields.find? (fun p => p.1 == k) with
      | some p => p.2
      | none => .undefined
  | _ => .undefined

/-- JavaScript `a || b`. -/
def jsOr (a b : Json) : Json :=
  if jsTruthy a then a else b

/-! ## HTTP response model -/

/-- The body of an HTTP response, as seen through `response.json()`:
either it parses to a JSON value, or parsing rejects with a
`SyntaxError` whose message is `msg`. -/
inductive BodyRep where
  | parsed (j : Json) : BodyRep
  | unparsable (msg : String) : BodyRep

/-- `response.ok`: status in the 2xx range. -/
def respOk (status : Nat) : Bool :=
  decide (200 ≤ status) && decide (status ≤ 299)

/-- An HTTP response delivered to the client. -/
structure HttpResponse where
  status : Nat
  body : BodyRep

/-- `safeJson(response)` (`src/App.js` lines 81-87): `await
response.json()`, resolving to `null` when parsing fails. -/
def safeJson : BodyRep → Json
  | .parsed j => j
  | .unparsable _ => .null

/-- How a gateway call terminates abnormally: an `Error` thrown by the
gateway itself carrying `errorMessage`, or the `SyntaxError` rejection of
`response.json()` on a successful response. -/
inductive FetchErr where
  | appError (msg : Json) : FetchErr
  | parseError (msg : String) : FetchErr

/-- Response handling of `fetchWithAuth` (`src/App.js` lines 105-116):
non-2xx throws `detail?.detail || detail?.message || "Request failed
(<status>)"` with `detail = safeJson(response)`; status 204 resolves to
`null`; otherwise the result of `response.json()` is returned, so an
unparsable body on a successful response rejects with the parse error. -/
def fetchWithAuthResult (r : HttpResponse) : Except FetchErr Json :=
  if !respOk r.status then
    .error (.appError (jsOr (jsField (safeJson r.body) "detail")
      (jsOr (jsField (safeJson r.body) "message")
        (.str ("Request failed (" ++ toString r.status ++ ")")))))
  else if r.status == 204 then
    .ok .null
  else
    match r.body with
    | .parsed j => .ok j
    | .unparsable m => .error (.parseError m)

/-! ## Request headers (`src/App.js` lines 91-98)

JavaScript object literals are modelled as ordered association lists with
unique keys: assignment to an existing key replaces its value in place,
assignment to a fresh key appends. -/

/-- `o[k] = v`: replace the entry for `k` in place, else append (object
keys are unique, so at most one entry matches). -/
def objSet : List (String × String) → String → String → List (String × String)
  | [], k, v => [(k, v)]
  | p :: rest, k, v =>
      if p.1 == k then (k, v) :: rest else p :: objSet rest k v

/-- Object spread `\x7b ...o, ...adds \x7d` restricted to the overriding
part: each entry of `adds` is assigned onto `o` in order. -/
def objMerge (o adds : List (String × String)) : List (String × String) :=
  adds.foldl (fun acc p => objSet acc p.1 p.2) o

/-- Property lookup on the association-list object. -/
def objGet (o : List (String × String)) (k : String) : Option String :=
  (o.find? (fun p => p.1 == k)).map (fun p => p.2)

/-- Header construction of `fetchWithAuth`: start from
`Content-Type: application/json`, spread the caller's headers over it,
then, when a token is present, assign
`headers.Authorization = "Bearer <token>"`. -/
def mkHeaders (token : String) (callerHeaders : List (String × String)) :
    List (String × String) :=
  let headers := objMerge [("Content-Type", "application/json")] callerHeaders
  if token ≠ "" then
    objSet headers "Authorization" ("Bearer " ++ token)
  else
    headers

/-! ## Medicines and the search filter (`src/App.js` lines 284-289)

Searched strings are modelled as `List Char`; `String.prototype.
toLowerCase` is character-wise lowercasing and `a.includes(b)` is the
contiguous-sublist test `containsSub a b`. -/

/-- Character-wise lowercasing (`s.toLowerCase()`). -/
def lowerStr (s : List Char) : List Char :=
  s.map Char.toLower

/-- `hay` starts with `needle`. -/
def startsWith : List Char → List Char → Bool
  | _, [] => true
  | [], _ :: _ => false
  | a :: as, b :: bs => (a == b) && startsWith as bs

/-- `hay.includes(needle)`: `needle` occurs contiguously in `hay`. -/
def containsSub : List Char → List Char → Bool
  | [], needle => needle.isEmpty
  | a :: as, needle => startsWith (a :: as) needle || containsSub as needle

/-- A medicine as consumed by the filter and the status cell, under the
typing the component assumes: the three searched fields are strings,
`quantity` is a number and `reorder_level` is a possibly-absent number. -/
structure Medicine where
  name : List Char
  generic_name : List Char
  category : List Char
  quantity : Int
  reorder_level : Option Int
deriving DecidableEq

/-- `filteredMedicines` (`src/App.js` lines 285-289): keep the medicines
whose lowercased name, generic name or category contains the lowercased
search query. -/
def filteredMedicines (medicines : List Medicine) (searchQuery : List Char) :
    List Medicine :=
  medicines.filter (fun med =>
    containsSub (lowerStr med.name) (lowerStr searchQuery) ||
    containsSub (lowerStr med.generic_name) (lowerStr searchQuery) ||
    containsSub (lowerStr med.category) (lowerStr searchQuery))

/-- JavaScript `r || d` on numbers: `r` when non-zero and defined,
else `d`. -/
def jsOrNum (r : Option Int) (d : Int) : Int :=
  match r with
  | none => d
  | some v => if v = 0 then d else v

/-- The low-stock determination of the inventory status cell
(`src/App.js` line 673): `quantity <= (reorder_level || 10)`. -/
def isLowStock (m : Medicine) : Bool :=
  decide (m.quantity ≤ jsOrNum m.reorder_level 10)

/-! ### The filter under JavaScript dynamic typing (for the partiality
claim): the three searched fields may be `undefined`/`null`, in which
case `.toLowerCase()` throws a `TypeError`.  `||` short-circuits. -/

/-- A medicine record as it may actually arrive from the backend: each
searched field is a string or absent. -/
structure MedicineRaw where
  name : Option (List Char)
  generic_name : Option (List Char)
  category : Option (List Char)
deriving DecidableEq

/-- The projection of a well-typed medicine. -/
def rawOfMedicine (m : Medicine) : MedicineRaw :=
  { name := some m.name, generic_name := some m.generic_name,
    category := some m.category }

/-- The filter predicate as JavaScript evaluates it: left-to-right with
short-circuiting `||`; lowercasing an absent field throws. -/
def medMatchesE (q : List Char) (m : MedicineRaw) : Except Unit Bool :=
  match m.name with
  | none => .error ()
  | some n =>
    if containsSub (lowerStr n) (lowerStr q) then .ok true
    else
      match m.generic_name with
      | none => .error ()
      | some g =>
        if containsSub (lowerStr g) (lowerStr q) then .ok true
        else
          match m.category with
          | none => .error ()
          | some c => .ok (containsSub (lowerStr c) (lowerStr q))

/-- `Array.prototype.filter` with a predicate that may throw: elements
are tested in order and the first throw aborts the whole computation. -/
def filterE (p : α → Except Unit Bool) : List α → Except Unit (List α)
  | [] => .ok []
  | x :: xs =>
    match p x with
    | .error e => .error e
    | .ok b =>
      match filterE p xs with
      | .error e => .error e
      | .ok rest => .ok (if b then x :: rest else rest)

/-- `filteredMedicines` as evaluated on raw records. -/
def filteredMedicinesJS (medicines : List MedicineRaw) (searchQuery : List Char) :
    Except Unit (List MedicineRaw) :=
  filterE (medMatchesE searchQuery) medicines

/-! ## Session persistence (`src/App.js` lines 66-79, 196-202) -/

/-- The session-storage cell under `AUTH_STORAGE_KEY`: absent, holding a
string `JSON.parse` rejects, or holding a string parsing to `j`. -/
inductive StoredCell where
  | absent : StoredCell
  | unparsable : StoredCell
  | parsed (j : Json) : StoredCell

/-- The component state the Session Manager owns. -/
structure SessionState where
  token : Json
  user : Json

/-- Initial component state: `token = ""`, `user = null`. -/
def initialSession : SessionState :=
  { token := .str "", user := .null }

/-- What a successful login/registration writes to storage
(`src/App.js` lines 199-202): `JSON.stringify` of the token/user pair,
which parses back to the same JSON value. -/
def persistSession (t : String) (u : Json) : StoredCell :=
  .parsed (.obj [("token", .str t), ("user", u)])

/-- The startup restore effect (`src/App.js` lines 66-79): an absent
cell is skipped; a parse failure is caught and logged; otherwise, when
`payload.token` is truthy, the token is adopted and the user defaults
to `null`.  Totality of this function models that no error reaches the
caller. -/
def restoreSession (cell : StoredCell) : SessionState :=
  match cell with
  | .absent => initialSession
  | .unparsable => initialSession
  | .parsed j =>
      if jsTruthy (jsField j "token") then
        { token := jsField j "token", user := jsOr (jsField j "user") .null }
      else
        initialSession

/-! ## Application state and handlers -/

/-- Toast variants (`src/App.js` line 17). -/
inductive ToastVariant where
  | info : ToastVariant
  | error : ToastVariant
deriving DecidableEq

/-- A toast notice. -/
structure Toast where
  message : Json
  variant : ToastVariant

/-- The component state relevant to the session, data and notification
claims. -/
structure AppState where
  token : Json
  user : Json
  medicines : Json
  analytics : Json
  storage : StoredCell
  toast : Option Toast

/-- `authenticated = Boolean(token)` (`src/App.js` line 57). -/
def appAuthenticated (s : AppState) : Bool :=
  jsTruthy s.token

/-- `signOut` (`src/App.js` lines 217-224): clear token and user, remove
the stored session, clear medicines and analytics, toast an
informational notice. -/
def signOut (s : AppState) : AppState :=
  { s with
    token := .str ""
    user := .null
    storage := .absent
    medicines := .arr []
    analytics := .null
    toast := some { message := .str "You have signed out.", variant := .info } }

/-- Which authentication endpoint a submission targets. -/
inductive AuthMode where
  | login : AuthMode
  | register : AuthMode

/-- The outcome of the `fetch` inside `handleAuthSubmit`: the promise
rejects with a transport error, or a response with some status and body
arrives. -/
inductive FetchOutcome where
  | networkError (msg : String) : FetchOutcome
  | response (status : Nat) (body : BodyRep) : FetchOutcome

/-- `handleAuthSubmit` (`src/App.js` lines 161-215), as a function of the
prior state and the fetch outcome.  A non-2xx response throws
`detail?.detail || "Authentication failed"`; a 2xx response whose body
does not parse lets the `response.json()` rejection reach the same
`catch`; every caught error only toasts `error.message`.  On success the
token and user are adopted and persisted.  (The auth form fields and the
loading flag are outside the modelled state.) -/
def handleAuthSubmit (mode : AuthMode) (s : AppState) (outcome : FetchOutcome) :
    AppState :=
  match outcome with
  | .networkError msg =>
      { s with toast := some { message := .str msg, variant := .error } }
  | .response status body =>
      if !respOk status then
        { s with toast := some (Toast.mk
            (jsOr (jsField (safeJson body) "detail")
              (.str "Authentication failed")) .error) }
      else
        match body with
        | .unparsable msg =>
            { s with toast := some { message := .str msg, variant := .error } }
        | .parsed result =>
            { s with
              token := jsField result "access_token"
              user := jsField result "user"
              storage := .parsed (.obj
                [("token", jsField result "access_token"),
                 ("user", jsField result "user")])
              toast := some (Toast.mk
                (.str (match mode with
                  | .register => "Registration successful"
                  | .login => "Logged in successfully")) .info) }

/-! ## The create-medicine form (`src/App.js` lines 41-54, 239-272) -/

/-- The `medicineForm` state. -/
structure MedicineForm where
  name : String
  generic_name : String
  category : String
  manufacturer : String
  quantity : Int
  unit : String
  reorder_level : Int
  unit_price : Int
  batch_number : String
  expiry_date : String
  location : String
  description : String
deriving DecidableEq

/-- The initial `medicineForm` (`src/App.js` lines 41-54); the default
expiry date, `dayjs().add(6, "month")` formatted, depends on the clock
and is passed in. -/
def initialMedicineForm (defaultExpiry : String) : MedicineForm :=
  { name := ""
    generic_name := ""
    category := ""
    manufacturer := ""
    quantity := 0
    unit := "units"
    reorder_level := 10
    unit_price := 0
    batch_number := ""
    expiry_date := defaultExpiry
    location := ""
    description := "" }

/-- The form update performed after a successful submission
(`src/App.js` lines 255-267): spread the current form, then overwrite
the listed fields.  `unit` and `expiry_date` are not listed. -/
def resetAfterCreate (current : MedicineForm) : MedicineForm :=
  { current with
    name := ""
    generic_name := ""
    category := ""
    manufacturer := ""
    quantity := 0
    reorder_level := 10
    unit_price := 0
    batch_number := ""
    location := ""
    description := "" }

/-- State touched by `handleCreateMedicine`. -/
structure CreateState where
  form : MedicineForm
  medicines : Json
  toast : Option Toast

/-- Outcome of the POST followed by the list refetch: both succeed (the
refetched list is `items`), or one of them throws with message `m`. -/
inductive CreateOutcome where
  | success (items : Json) : CreateOutcome
  | failure (m : Json) : CreateOutcome

/-- `handleCreateMedicine` (`src/App.js` lines 239-272): unauthenticated
submissions only toast; on success the list is replaced, a notice is
shown and the form fields are reset via `resetAfterCreate`; a thrown
error only toasts its message. -/
def handleCreateMedicine (authenticated : Bool) (st : CreateState)
    (outcome : CreateOutcome) : CreateState :=
  if !authenticated then
    { st with toast := some (Toast.mk (.str "Please login first") .error) }
  else
    match outcome with
    | .success items =>
        { form := resetAfterCreate st.form
          medicines := items
          toast := some (Toast.mk (.str "Medicine added") .info) }
    | .failure m =>
        { st with toast := some (Toast.mk m .error) }

/-! ## Event model for the session lifecycle (`src/App.js` lines 120-154)

`fetchProfile` is called from the post-login effect; its continuation
(`setUser(profile)` and the storage write with the closed-over `token`)
runs when the response resolves, whether or not the user has signed out
in the meantime — the handler contains no guard comparing the captured
token with the current one. -/

/-- Application state plus the in-flight profile request, carrying the
token its closure captured (`none` when no request is pending). -/
structure SysState where
  app : AppState
  pendingProfile : Option String

/-- Initial system state. -/
def sysInit : SysState :=
  { app :=
      { token := .str ""
        user := .null
        medicines := .arr []
        analytics := .null
        storage := .absent
        toast := none }
    pendingProfile := none }

/-- The events of interest: a successful login response is applied (and
the token-change effect issues the profile fetch, whose closure captures
that token); the user clicks sign-out; the profile response resolves. -/
inductive AppEvent where
  | loginOk (t : String) (u : Json) : AppEvent
  | signOutClick : AppEvent
  | profileResolved (profile : Json) : AppEvent

/-- One step of the event model.  `profileResolved` runs the
continuation of `fetchProfile` (`src/App.js` lines 120-127): it sets the
user and rewrites storage with the captured token, unconditionally. -/
def step (s : SysState) : AppEvent → SysState
  | .loginOk t u =>
      { app :=
          { s.app with
            token := .str t
            user := u
            storage := .parsed (.obj [("token", .str t), ("user", u)])
            toast := some (Toast.mk (.str "Logged in successfully") .info) }
        pendingProfile := some t }
  | .signOutClick =>
      { app := signOut s.app, pendingProfile := s.pendingProfile }
  | .profileResolved profile =>
      match s.pendingProfile with
      | some captured =>
          { app :=
              { s.app with
                user := profile
                storage := .parsed (.obj
                  [("token", .str captured), ("user", profile)]) }
            pendingProfile := none }
      | none => s

/-- Run a sequence of events from a state. -/
def runEvents (s : SysState) (events : List AppEvent) : SysState :=
  events.foldl step s

/-! ## Helper lemmas for the search filter -/

/-- `startsWith` characterised: `needle` is an initial segment. -/
theorem startsWith_iff (l p : List Char) :
    startsWith l p = true ↔ ∃ r, l = p ++ r := by
  induction p generalizing l with
  | nil => simp [startsWith]
  | cons b bs ih =>
    cases l with
    | nil => simp [startsWith]
    | cons a as =>
      simp [startsWith, Bool.and_eq_true, beq_iff_eq, ih, List.cons_append,
        List.cons.injEq, exists_and_left]

/-- `containsSub` characterised: `needle` occurs between two flanks. -/
theorem containsSub_iff (hay needle : List Char) :
    containsSub hay needle = true ↔
      ∃ pre post, hay = pre ++ needle ++ post := by
  induction hay with
  | nil =>
    cases needle with
    | nil => simp [containsSub]
    | cons b bs =>
      simp only [containsSub, List.isEmpty_cons, iff_false,
        Bool.false_eq_true, false_iff]
      rintro ⟨pre, post, h⟩
      exact absurd h.symm (by simp)
  | cons a as ih =>
    simp only [containsSub, Bool.or_eq_true, startsWith_iff, ih]
    constructor
    · rintro (⟨r, hr⟩ | ⟨pre, post, h⟩)
      · exact ⟨[], r, by simpa using hr⟩
      · exact ⟨a :: pre, post, by simp [h]⟩
    · rintro ⟨pre, post, h⟩
      cases pre with
      | nil => exact Or.inl ⟨post, by simpa using h⟩
      | cons x xs =>
        simp only [List.cons_append, List.cons.injEq] at h
        exact Or.inr ⟨xs, post, h.2⟩

/-- The empty needle is contained in every string. -/
theorem containsSub_of_nil (hay : List Char) : containsSub hay [] = true := by
  cases hay <;> simp [containsSub, startsWith]

/-! ## Claim C3 -/

/-- Claim C3: for every medicine list `M` and query `q`,
`filteredMedicines M q` contains exactly the elements of `M` whose name,
generic name or category contains `q` as a case-insensitive substring,
in their original relative order (it is a sublist of `M`), and
`filteredMedicines M []` is `M` itself. -/
theorem filteredMedicines_spec (M : List Medicine) (q : List Char) :
    List.Sublist (filteredMedicines M q) M ∧
    (∀ m, m ∈ filteredMedicines M q ↔
      m ∈ M ∧
        ((∃ pre post, lowerStr m.name = pre ++ lowerStr q ++ post) ∨
         (∃ pre post, lowerStr m.generic_name = pre ++ lowerStr q ++ post) ∨
         (∃ pre post, lowerStr m.category = pre ++ lowerStr q ++ post))) ∧
    filteredMedicines M [] = M := by
  refine ⟨List.filter_sublist _, ?_, ?_⟩
  · intro m
    simp [filteredMedicines, List.mem_filter, Bool.or_eq_true, containsSub_iff]
    exact fun _ => or_assoc
  · have hq : lowerStr [] = ([] : List Char) := rfl
    simp [filteredMedicines, hq, containsSub_of_nil]

/-! ## Claim C4 -/

/-- Claim C4: the low-stock determination is true exactly when the
quantity is at most the effective reorder level, which is the stored
reorder level when that is defined and non-zero, and 10 otherwise. -/
theorem isLowStock_iff (m : Medicine) :
    isLowStock m = true ↔
      m.quantity ≤ (match m.reorder_level with
        | some r => if r ≠ 0 then r else 10
        | none => 10) := by
  cases h : m.reorder_level with
  | none => simp [isLowStock, jsOrNum, h]
  | some r =>
    by_cases hr : r = 0 <;> simp [isLowStock, jsOrNum, h, hr]

/-! ## Claim C10 -/

/-- On a record with all three fields present, the throwing predicate
agrees with the total one. -/
theorem medMatchesE_total (q : List Char) (m : Medicine) :
    medMatchesE q (rawOfMedicine m) =
      .ok (containsSub (lowerStr m.name) (lowerStr q) ||
           containsSub (lowerStr m.generic_name) (lowerStr q) ||
           containsSub (lowerStr m.category) (lowerStr q)) := by
  simp only [medMatchesE, rawOfMedicine]
  by_cases h1 : containsSub (lowerStr m.name) (lowerStr q) = true <;>
    by_cases h2 : containsSub (lowerStr m.generic_name) (lowerStr q) = true <;>
      simp [h1, h2]

/-- A throwing predicate anywhere in the list aborts `filterE`. -/
theorem filterE_error_of_mem {α : Type} {p : α → Except Unit Bool}
    {M : List α} {m : α} (hm : m ∈ M) (he : p m = .error ()) :
    filterE p M = .error () := by
  induction M with
  | nil => cases hm
  | cons x xs ih =>
    rcases List.mem_cons.mp hm with rfl | hmem
    · simp [filterE, he]
    · cases hp : p x with
      | error e => cases e; simp [filterE, hp]
      | ok b => simp [filterE, hp, ih hmem]

/-- Counterexample to claim C10 as stated: a list containing a record
whose `generic_name` is absent is filtered without throwing, because the
record's name already matches (here the query is empty) and `||`
short-circuits before the missing field is lowercased. -/
def rawShortCircuit : MedicineRaw :=
  { name := some ['a'], generic_name := none, category := some ['c'] }

/-- Claim C10 counterexample theorem: `filteredMedicinesJS` on a list
with a missing `generic_name` resolves normally instead of throwing. -/
theorem filter_missing_field_not_throwing :
    filteredMedicinesJS [rawShortCircuit] [] = .ok [rawShortCircuit] ∧
    filteredMedicinesJS [rawShortCircuit] [] ≠ .error () := by
  constructor
  · rfl
  · intro h
    rw [show filteredMedicinesJS [rawShortCircuit] [] = .ok [rawShortCircuit] from rfl] at h
    exact Except.noConfusion h

/-- Claim C10 (amended): filtering is total — and agrees with the total
filter — under the precondition that all three searched fields are
strings; and it does throw when a missing field is actually evaluated,
in particular whenever some element's `name` is absent.  (An element
whose earlier field already matches short-circuits past later missing
fields, so a missing field alone does not force a throw.) -/
theorem filteredMedicinesJS_spec :
    (∀ (M : List Medicine) (q : List Char),
        filteredMedicinesJS (M.map rawOfMedicine) q =
          .ok ((filteredMedicines M q).map rawOfMedicine)) ∧
    (∀ (M : List MedicineRaw) (q : List Char),
        (∃ m, m ∈ M ∧ m.name = none) →
          filteredMedicinesJS M q = .error ()) := by
  constructor
  · intro M q
    induction M with
    | nil => rfl
    | cons m ms ih =>
      simp only [filteredMedicinesJS, List.map_cons, filterE,
        medMatchesE_total] at *
      rw [ih]
      cases hb : (containsSub (lowerStr m.name) (lowerStr q) ||
          containsSub (lowerStr m.generic_name) (lowerStr q) ||
          containsSub (lowerStr m.category) (lowerStr q)) <;>
        simp [filteredMedicines, List.filter_cons, hb]
  · rintro M q ⟨m, hm, hname⟩
    apply filterE_error_of_mem hm
    simp [medMatchesE, hname]

/-- A concrete fully-typed medicine. -/
def medA : Medicine :=
  { name := ['a'], generic_name := ['g'], category := ['c'],
    quantity := 1, reorder_level := none }

/-- A concrete raw record with a missing name. -/
def rawNoName : MedicineRaw :=
  { name := none, generic_name := some ['g'], category := some ['c'] }

/-- Witness for the amended claim C10: a concrete all-strings list
filters totally, and a concrete list with a missing name throws. -/
theorem filteredMedicinesJS_spec_wit :
    filteredMedicinesJS [rawOfMedicine medA] ['a'] =
      .ok [rawOfMedicine medA] ∧
    filteredMedicinesJS [rawNoName] [] = .error () := by
  constructor
  · have h := filteredMedicinesJS_spec.1 [medA] ['a']
    rw [show filteredMedicines [medA] ['a'] = [medA] from rfl] at h
    exact h
  · exact filteredMedicinesJS_spec.2 [rawNoName] []
      ⟨rawNoName, List.mem_singleton.mpr rfl, rfl⟩

/-! ## Claim C1 -/

/-- A 200 response whose body does not parse. -/
def resp200Bad : HttpResponse :=
  { status := 200, body := .unparsable "Unexpected token" }

/-- Claim C1 counterexample theorem: on a 2xx, non-204 response with an
unparsable body, the gateway rejects with the parse error instead of
resolving to an empty result. -/
theorem parse_error_propagates :
    fetchWithAuthResult resp200Bad = .error (.parseError "Unexpected token") ∧
    fetchWithAuthResult resp200Bad ≠ .ok .null := by
  constructor
  · rfl
  · intro h
    rw [show fetchWithAuthResult resp200Bad =
      .error (.parseError "Unexpected token") from rfl] at h
    exact Except.noConfusion h

/-- Claim C1 (amended): for every successful (2xx) response with status
other than 204, the gateway parses the body as JSON and returns the
parsed value; a parse failure is propagated as an error (the promise
rejection of `response.json()`) rather than being swallowed. -/
theorem fetch_success_parses (r : HttpResponse) (hok : respOk r.status = true)
    (h204 : r.status ≠ 204) :
    (∀ j, r.body = .parsed j → fetchWithAuthResult r = .ok j) ∧
    (∀ m, r.body = .unparsable m →
      fetchWithAuthResult r = .error (.parseError m)) := by
  have hbeq : (r.status == 204) = false := by
    simpa using h204
  constructor
  · intro j hj
    simp [fetchWithAuthResult, hok, hbeq, hj]
  · intro m hm
    simp [fetchWithAuthResult, hok, hbeq, hm]

/-- Witness for the amended claim C1 at status 200. -/
theorem fetch_success_parses_wit :
    fetchWithAuthResult { status := 200, body := .parsed (.num 1) } =
      .ok (.num 1) ∧
    fetchWithAuthResult resp200Bad =
      .error (.parseError "Unexpected token") := by
  constructor
  · exact (fetch_success_parses
      { status := 200, body := .parsed (.num 1) }
      (by decide) (by decide)).1 (.num 1) rfl
  · exact (fetch_success_parses resp200Bad (by decide) (by decide)).2
      "Unexpected token" rfl

/-! ## Claim C2 -/

/-- Assigning a key makes lookup of that key return the new value. -/
theorem objGet_objSet_self (o : List (String × String)) (k v : String) :
    objGet (objSet o k v) k = some v := by
  induction o with
  | nil => simp [objSet, objGet, List.find?]
  | cons p rest ih =>
    by_cases h : (p.1 == k) = true
    · simp [objSet, objGet, h, List.find?]
    · simp only [objSet, h, Bool.false_eq_true, if_false]
      simpa [objGet, List.find?, h] using ih

/-- Assigning a key leaves lookups of other keys unchanged. -/
theorem objGet_objSet_other (o : List (String × String)) (k v k2 : String)
    (hne : (k == k2) = false) :
    objGet (objSet o k v) k2 = objGet o k2 := by
  induction o with
  | nil => simp [objSet, objGet, List.find?, hne]
  | cons p rest ih =>
    by_cases h : (p.1 == k) = true
    · have hp2 : (p.1 == k2) = false := by
        have hp1 : p.1 = k := by simpa [beq_iff_eq] using h
        simpa [hp1] using hne
      simp [objSet, objGet, h, hp2, List.find?, hne]
    · by_cases h2 : (p.1 == k2) = true
      · simp [objSet, objGet, h, h2, List.find?]
      · simp only [objSet, h, Bool.false_eq_true, if_false]
        simpa [objGet, List.find?, h2] using ih

/-- Spreading entries none of which carries key `k` does not change the
lookup of `k`. -/
theorem objGet_objMerge_of_absent (adds : List (String × String))
    (o : List (String × String)) (k : String)
    (h : ∀ p ∈ adds, (p.1 == k) = false) :
    objGet (objMerge o adds) k = objGet o k := by
  induction adds generalizing o with
  | nil => rfl
  | cons p rest ih =>
    have hcons : objMerge o (p :: rest) = objMerge (objSet o p.1 p.2) rest := rfl
    rw [hcons, ih _ (fun q hq => h q (List.mem_cons_of_mem p hq)),
      objGet_objSet_other _ _ _ _ (h p (List.mem_cons_self p rest))]

/-- Spreading a duplicate-free entry list makes lookups inside it win. -/
theorem objGet_objMerge_of_mem (adds : List (String × String))
    (o : List (String × String)) (k v : String)
    (hnd : (adds.map Prod.fst).Nodup)
    (hfind : objGet adds k = some v) :
    objGet (objMerge o adds) k = some v := by
  induction adds generalizing o with
  | nil => simp [objGet, List.find?] at hfind
  | cons p rest ih =>
    have hcons : objMerge o (p :: rest) = objMerge (objSet o p.1 p.2) rest := rfl
    have hnd2 : (p.1 ∉ rest.map Prod.fst) ∧ (rest.map Prod.fst).Nodup := by
      simpa [List.nodup_cons] using hnd
    by_cases h : (p.1 == k) = true
    · have hk : p.1 = k := by simpa [beq_iff_eq] using h
      have hv : v = p.2 := by
        simp [objGet, List.find?, h] at hfind
        exact hfind.symm
      have habsent : ∀ q ∈ rest, (q.1 == k) = false := by
        intro q hq
        have hin : q.1 ∈ rest.map Prod.fst := List.mem_map_of_mem Prod.fst hq
        have hqne : q.1 ≠ k := by
          intro hbad
          exact hnd2.1 (by rw [hk, ← hbad]; exact hin)
        simpa [beq_eq_false_iff_ne] using hqne
      rw [hcons, objGet_objMerge_of_absent rest _ k habsent, ← hk,
        objGet_objSet_self, hv]
    · have hfind2 : objGet rest k = some v := by
        simpa [objGet, List.find?, h] using hfind
      rw [hcons]
      exact ih _ hnd2.2 hfind2

/-- Lookup after a duplicate-free spread: the spread entries win, with
the base object as fallback. -/
theorem objGet_objMerge (o adds : List (String × String)) (k : String)
    (hnd : (adds.map Prod.fst).Nodup) :
    objGet (objMerge o adds) k =
      (objGet adds k).elim (objGet o k) some := by
  cases hfind : objGet adds k with
  | none =>
    have habsent : ∀ p ∈ adds, (p.1 == k) = false := by
      intro p hp
      by_contra hbad
      have hmem : (adds.find? (fun q => q.1 == k)).isSome := by
        apply List.find?_isSome.mpr
        exact ⟨p, hp, by simpa using hbad⟩
      rcases Option.isSome_iff_exists.mp hmem with ⟨q, hq⟩
      simp [objGet, hq] at hfind
    simpa using objGet_objMerge_of_absent adds o k habsent
  | some v =>
    simpa using objGet_objMerge_of_mem adds o k v hnd hfind

/-- Claim C2 counterexample theorem: with a token present, a
caller-supplied `Authorization` header does not win — the gateway
overwrites it with the bearer token. -/
theorem caller_auth_header_overridden :
    objGet (mkHeaders "t" [("Authorization", "Basic x")]) "Authorization" =
      some "Bearer t" ∧
    objGet (mkHeaders "t" [("Authorization", "Basic x")]) "Authorization" ≠
      some "Basic x" := by
  constructor
  · rfl
  · intro h
    rw [show objGet (mkHeaders "t" [("Authorization", "Basic x")])
      "Authorization" = some "Bearer t" from rfl] at h
    simp at h

/-- Claim C2 (amended): the request headers are the merge of a
`Content-Type: application/json` header, the caller-supplied headers and,
when a token is present, an `Authorization: Bearer <token>` header; the
caller-supplied value wins for every header except `Authorization`: when
a token is present the gateway's bearer header overrides any
caller-supplied `Authorization`, and only without a token does a
caller-supplied `Authorization` survive. -/
theorem mkHeaders_spec (token : String) (caller : List (String × String))
    (hnd : (caller.map Prod.fst).Nodup) :
    (token ≠ "" →
      objGet (mkHeaders token caller) "Authorization" =
        some ("Bearer " ++ token)) ∧
    (token = "" →
      objGet (mkHeaders token caller) "Authorization" =
        (objGet caller "Authorization").elim
          (objGet [("Content-Type", "application/json")] "Authorization")
          some) ∧
    (∀ k, (k == "Authorization") = false →
      objGet (mkHeaders token caller) k =
        (objGet caller k).elim
          (objGet [("Content-Type", "application/json")] k) some) := by
  refine ⟨?_, ?_, ?_⟩
  · intro ht
    simp only [mkHeaders, ht, if_true, ne_eq, not_false_eq_true, if_pos]
    exact objGet_objSet_self _ _ _
  · intro ht
    simp only [mkHeaders, ht, ne_eq, not_true_eq_false, if_false]
    exact objGet_objMerge _ _ _ hnd
  · intro k hk
    by_cases ht : token = ""
    · simp only [mkHeaders, ht, ne_eq, not_true_eq_false, if_false]
      exact objGet_objMerge _ _ _ hnd
    · simp only [mkHeaders, ne_eq, ht, not_false_eq_true, if_pos]
      have hkne : k ≠ "Authorization" := beq_eq_false_iff_ne.mp hk
      have hne : ("Authorization" == k) = false :=
        beq_eq_false_iff_ne.mpr (Ne.symm hkne)
      rw [objGet_objSet_other _ _ _ _ hne]
      exact objGet_objMerge _ _ _ hnd

/-- Witness for the amended claim C2: concrete caller headers with a
`Content-Type` override and a present token. -/
theorem mkHeaders_spec_wit :
    objGet (mkHeaders "t" [("Content-Type", "text/plain")]) "Authorization" =
      some "Bearer t" ∧
    objGet (mkHeaders "t" [("Content-Type", "text/plain")]) "Content-Type" =
      (objGet [("Content-Type", "text/plain")] "Content-Type").elim
        (objGet [("Content-Type", "application/json")] "Content-Type")
        some := by
  constructor
  · exact (mkHeaders_spec "t" [("Content-Type", "text/plain")]
      (by simp)).1 (by simp)
  · exact (mkHeaders_spec "t" [("Content-Type", "text/plain")]
      (by simp)).2.2 "Content-Type" (by decide)

/-! ## Claim C5 -/

/-- Claim C5: persisting a session (non-empty token, user either a
truthy value such as a profile object or `null`) and then running the
startup restore yields the identical token/user pair; restoring from an
absent or unparsable cell yields the unauthenticated initial state —
and `restoreSession` being a total function models that no error is
raised to the caller. -/
theorem session_roundtrip (t : String) (u : Json) (ht : t ≠ "")
    (hu : jsTruthy u = true ∨ u = .null) :
    restoreSession (persistSession t u) = { token := .str t, user := u } ∧
    restoreSession .absent = initialSession ∧
    restoreSession .unparsable = initialSession ∧
    jsTruthy initialSession.token = false := by
  refine ⟨?_, rfl, rfl, rfl⟩
  have hfield : jsField (.obj [("token", .str t), ("user", u)]) "token" =
    .str t := rfl
  have hufield : jsField (.obj [("token", .str t), ("user", u)]) "user" =
    u := rfl
  have htru : jsTruthy (Json.str t) = true := by simp [jsTruthy, ht]
  simp only [restoreSession, persistSession, hfield, hufield, jsOr, htru,
    if_true]
  rcases hu with hu | hu
  · simp [hu]
  · simp [hu, jsTruthy]

/-- Witness for claim C5: a concrete token and profile round-trip. -/
theorem session_roundtrip_wit :
    restoreSession
        (persistSession "t1" (.obj [("full_name", .str "Ada Lovelace")])) =
      { token := .str "t1",
        user := .obj [("full_name", .str "Ada Lovelace")] } :=
  (session_roundtrip "t1" (.obj [("full_name", .str "Ada Lovelace")])
    (by decide) (Or.inl rfl)).1

/-! ## Claim C6 -/

/-- Claim C6 counterexample theorem: on a network error the toast
carries the transport error's own message (here the browser's
"Failed to fetch"), which is neither a server-provided message nor the
generic "Authentication failed" fallback the claim prescribes. -/
theorem network_error_message_not_fallback :
    (handleAuthSubmit .login sysInit.app
        (.networkError "Failed to fetch")).toast =
      some (Toast.mk (.str "Failed to fetch") .error) ∧
    (handleAuthSubmit .login sysInit.app
        (.networkError "Failed to fetch")).toast ≠
      some (Toast.mk (.str "Authentication failed") .error) := by
  constructor
  · rfl
  · intro h
    rw [show (handleAuthSubmit .login sysInit.app
        (.networkError "Failed to fetch")).toast =
      some (Toast.mk (.str "Failed to fetch") .error) from rfl] at h
    simp [Toast.mk.injEq] at h

/-- Claim C6 (amended): every failed login or registration attempt
leaves the prior session state (token, user, persisted record — and the
cached medicines and analytics) untouched; for a non-2xx response the
surfaced message is the server's truthy `detail` field when present,
else the generic "Authentication failed"; for a network error it is the
transport error's own message.  A failed attempt is never partially
applied. -/
theorem auth_failure_spec (mode : AuthMode) (s : AppState) (status : Nat)
    (body : BodyRep) (msg : String) (hfail : respOk status = false) :
    ((handleAuthSubmit mode s (.response status body)).token = s.token ∧
     (handleAuthSubmit mode s (.response status body)).user = s.user ∧
     (handleAuthSubmit mode s (.response status body)).storage = s.storage ∧
     (handleAuthSubmit mode s (.response status body)).medicines =
       s.medicines ∧
     (handleAuthSubmit mode s (.response status body)).analytics =
       s.analytics ∧
     (handleAuthSubmit mode s (.response status body)).toast =
       some (Toast.mk
         (jsOr (jsField (safeJson body) "detail")
           (.str "Authentication failed")) .error)) ∧
    ((handleAuthSubmit mode s (.networkError msg)).token = s.token ∧
     (handleAuthSubmit mode s (.networkError msg)).user = s.user ∧
     (handleAuthSubmit mode s (.networkError msg)).storage = s.storage ∧
     (handleAuthSubmit mode s (.networkError msg)).medicines = s.medicines ∧
     (handleAuthSubmit mode s (.networkError msg)).analytics = s.analytics ∧
     (handleAuthSubmit mode s (.networkError msg)).toast =
       some (Toast.mk (.str msg) .error)) := by
  constructor
  · simp [handleAuthSubmit, hfail]
  · simp [handleAuthSubmit]

/-- Witness for the amended claim C6: a 401 response with a JSON error
body, applied to the initial state. -/
theorem auth_failure_spec_wit :
    (handleAuthSubmit .login sysInit.app
        (.response 401 (.parsed
          (.obj [("detail", .str "Invalid credentials")])))).token =
      sysInit.app.token ∧
    (handleAuthSubmit .login sysInit.app
        (.response 401 (.parsed
          (.obj [("detail", .str "Invalid credentials")])))).toast =
      some (Toast.mk
        (jsOr (jsField (safeJson (.parsed
          (.obj [("detail", .str "Invalid credentials")]))) "detail")
          (.str "Authentication failed")) .error) := by
  have h := auth_failure_spec .login sysInit.app 401
    (.parsed (.obj [("detail", .str "Invalid credentials")]))
    "Failed to fetch" (by decide)
  exact ⟨h.1.1, h.1.2.2.2.2.2⟩

/-! ## Claim C7 -/

/-- Claim C7: `signOut` clears the token, the user profile, the medicine
list and the analytics snapshot in the one state produced by the call,
removes the persisted session record, emits an informational notice, and
the resulting state is unauthenticated. -/
theorem signOut_spec (s : AppState) :
    (signOut s).token = .str "" ∧
    (signOut s).user = .null ∧
    (signOut s).medicines = .arr [] ∧
    (signOut s).analytics = .null ∧
    (signOut s).storage = .absent ∧
    (signOut s).toast = some (Toast.mk (.str "You have signed out.") .info) ∧
    appAuthenticated (signOut s) = false :=
  ⟨rfl, rfl, rfl, rfl, rfl, rfl, rfl⟩

/-! ## Claim C8 -/

/-- A concrete profile payload. -/
def adaProfile : Json := .obj [("full_name", .str "Ada Lovelace")]

/-- The failing run for claim C8: log in with token "t1" (which issues
the profile fetch whose closure captures "t1"), sign out before the
response arrives, then let the profile response resolve. -/
def staleRun : SysState :=
  runEvents sysInit
    [.loginOk "t1" .null, .signOutClick, .profileResolved adaProfile]

/-- Claim C8 theorem (evaluating the code at the failing input): after
signing out, the late profile response is still applied — the
signed-out (unauthenticated) state shows the previous session's profile
and the session record is re-persisted under the old token "t1" —
because `fetchProfile`'s response handler has no guard at all. -/
theorem stale_profile_applied :
    appAuthenticated staleRun.app = false ∧
    staleRun.app.user = adaProfile ∧
    staleRun.app.storage =
      .parsed (.obj [("token", .str "t1"), ("user", adaProfile)]) :=
  ⟨rfl, rfl, rfl⟩

/-! ## Claim C9 -/

/-- A concrete filled-in form whose `unit` and `expiry_date` differ from
their defaults. -/
def filledForm : MedicineForm :=
  { initialMedicineForm "2026-04-11" with
    name := "Amoxicillin"
    unit := "boxes"
    expiry_date := "2020-01-01" }

/-- Claim C9 counterexample theorem: after a successful create-medicine
submission the form's `unit` is still "boxes" (not the default "units")
and its `expiry_date` is still "2020-01-01" — the reset skips both
fields. -/
theorem form_unit_not_reset :
    (handleCreateMedicine true
        { form := filledForm, medicines := .arr [], toast := none }
        (.success (.arr []))).form.unit = "boxes" ∧
    (initialMedicineForm "2026-04-11").unit = "units" ∧
    ("boxes" : String) ≠ "units" ∧
    (handleCreateMedicine true
        { form := filledForm, medicines := .arr [], toast := none }
        (.success (.arr []))).form.expiry_date = "2020-01-01" := by
  refine ⟨rfl, rfl, by decide, rfl⟩

/-- Claim C9 (amended): after every successful create-medicine
submission the form is reset in all fields except `unit` and
`expiry_date`: the text fields become empty strings, `quantity` and
`unit_price` become 0 and `reorder_level` becomes 10, while `unit` and
`expiry_date` keep the values the user last entered. -/
theorem create_reset_spec (st : CreateState) (items : Json) :
    (handleCreateMedicine true st (.success items)).form.name = "" ∧
    (handleCreateMedicine true st (.success items)).form.generic_name = "" ∧
    (handleCreateMedicine true st (.success items)).form.category = "" ∧
    (handleCreateMedicine true st (.success items)).form.manufacturer = "" ∧
    (handleCreateMedicine true st (.success items)).form.quantity = 0 ∧
    (handleCreateMedicine true st (.success items)).form.reorder_level = 10 ∧
    (handleCreateMedicine true st (.success items)).form.unit_price = 0 ∧
    (handleCreateMedicine true st (.success items)).form.batch_number = "" ∧
    (handleCreateMedicine true st (.success items)).form.location = "" ∧
    (handleCreateMedicine true st (.success items)).form.description = "" ∧
    (handleCreateMedicine true st (.success items)).form.unit =
      st.form.unit ∧
    (handleCreateMedicine true st (.success items)).form.expiry_date =
      st.form.expiry_date :=
  ⟨rfl, rfl, rfl, rfl, rfl, rfl, rfl, rfl, rfl, rfl, rfl, rfl⟩

/-! ## Concrete instances of the confirmed filter and low-stock claims -/

/-- Witness for claim C3 at a concrete list and query. -/
theorem filteredMedicines_spec_wit :
    List.Sublist (filteredMedicines [medA] ['a']) [medA] ∧
    filteredMedicines [medA] [] = [medA] :=
  ⟨(filteredMedicines_spec [medA] ['a']).1,
   (filteredMedicines_spec [medA] ['a']).2.2⟩

/-- Witness for claim C4: `medA` has quantity 1 and no reorder level, so
the default threshold 10 applies and it is low stock. -/
theorem isLowStock_iff_wit : isLowStock medA = true :=
  (isLowStock_iff medA).mpr (by decide)
